import Mathlib

set_option maxRecDepth 8192

/-! Formal model of the SRMIST university chatbot (api.py, UI.py, main.py,
chatbot.py, llm_config.py): the session/quota state machine, e-mail
validation, the answer formatter, the streaming pipeline, and source
formatting, together with theorems checking the specification's testable
properties against the code. Strings are modelled as `String`/`List Char`
(Python `len`/indexing counts code points, as does `List Char`). -/

/-! ## Basic string utilities (Python str semantics on `List Char`) -/

/-- Python whitespace for `str.strip()` (ASCII subset; `str.strip` also
strips some further Unicode whitespace, which does not occur in any input
considered below). -/
def isPyWs (c : Char) : Bool :=
  c = ' ' || c = '\t' || c = '\n' || c = '\r' || c = Char.ofNat 11 || c = Char.ofNat 12

/-- Remove trailing Python whitespace. -/
def dropTrailWs : List Char → List Char
  | [] => []
  | c :: rest =>
    let r := dropTrailWs rest
    if r.isEmpty && isPyWs c then [] else c :: r

/-- Python `str.strip()`. -/
def pyStrip (l : List Char) : List Char := dropTrailWs (l.dropWhile isPyWs)

/-- The apostrophe character, and a one-character string of it, used to
spell the source's string literals. -/
def aposC : Char := Char.ofNat 39

def apos : String := String.mk [aposC]

/-- `p` occurs at the start of `s`. -/
def isStartOf {α : Type} [DecidableEq α] : List α → List α → Bool
  | [], _ => true
  | _ :: _, [] => false
  | p :: ps, c :: cs => p = c && isStartOf ps cs

/-- Index of the first occurrence of `pat` in `s` (Python `str.find` /
`re.search` of a literal pattern). -/
def findSub (pat : List Char) : List Char → Option Nat
  | [] => if isStartOf pat [] then some 0 else none
  | c :: rest =>
    if isStartOf pat (c :: rest) then some 0 else (findSub pat rest).map (· + 1)

/-- Python `pat in s`. -/
def hasSub (pat s : List Char) : Bool := (findSub pat s).isSome

def ofChars (l : List Char) : String := String.mk l

/-- Python `pat in s` on `String`. -/
def hasSubStr (pat s : String) : Bool := hasSub pat.data s.data

/-- Python `str.lower()` (ASCII case mapping; all inputs considered below
are unaffected by the difference to full Unicode case mapping). -/
def pyLower (s : String) : String := ofChars (s.data.map Char.toLower)

/-- Python `str.strip()` on `String`. -/
def pyStripStr (s : String) : String := ofChars (pyStrip s.data)

/-- Split at the first occurrence of character `t`, if any. -/
def splitAtFirst (t : Char) : List Char → Option (List Char × List Char)
  | [] => none
  | c :: rest =>
    if c = t then some ([], rest)
    else (splitAtFirst t rest).map (fun p => (c :: p.1, p.2))

/-- Split at the last occurrence of character `t`, if any. -/
def splitAtLast (t : Char) (l : List Char) : Option (List Char × List Char) :=
  (splitAtFirst t l.reverse).map (fun p => (p.2.reverse, p.1.reverse))

/-- Helper of `wordCount`: the flag records whether the previous character
was inside a word. -/
def wordCountAux : Bool → List Char → Nat
  | _, [] => 0
  | inWord, c :: rest =>
    if isPyWs c then wordCountAux false rest
    else (if inWord then 0 else 1) + wordCountAux true rest

/-- Number of whitespace-separated words, Python `len(s.split())`. -/
def wordCount (l : List Char) : Nat := wordCountAux false l

/-! ## Email validation (main.py, `AuthenticationManager.validate_email`) -/

/-- Character class `[a-zA-Z0-9._%+-]` of the local part. `Char.isAlpha` and
`Char.isDigit` are exactly the ASCII ranges `[a-zA-Z]` / `[0-9]`. -/
def isLocalChar (c : Char) : Bool :=
  c.isAlpha || c.isDigit || c = '.' || c = '_' || c = '%' || c = '+' || c = '-'

/-- Character class `[a-zA-Z0-9.-]` of the domain part. -/
def isDomainChar (c : Char) : Bool :=
  c.isAlpha || c.isDigit || c = '.' || c = '-'

/-- `validate_email` from main.py: `re.match` of
`[a-zA-Z0-9._%+-]+@[a-zA-Z0-9.-]+[.][a-zA-Z]{2,}` anchored at both ends,
applied to `email.lower()`. Since neither character class contains `@`, the
local part is everything before the first `@`; since the TLD part admits no
dot, the final dot of the pattern is the last dot of the domain. -/
def validate_email (email : String) : Bool :=
  let cs := email.data.map Char.toLower
  match splitAtFirst '@' cs with
  | none => false
  | some (lp, rest) =>
    !lp.isEmpty && lp.all isLocalChar &&
    (match splitAtLast '.' rest with
     | none => false
     | some (dom, tld) =>
       !dom.isEmpty && dom.all isDomainChar && decide (2 ≤ tld.length)
         && tld.all Char.isAlpha)

/-! ## Session data model (api.py `sessions` entries; the `created_at`
timestamp string is ignored, no logic reads it) -/

def FREE_QUERY_LIMIT : Nat := 2

structure Session where
  query_count : Nat
  email_provided : Bool
  user_email : Option String
  skip_count : Nat
  deriving DecidableEq, Repr

/-- Fresh session created by `get_or_create_session`. -/
def initSession : Session := ⟨0, false, none, 0⟩

/-- Gate decision of a chat request: process it, or block it demanding an
e-mail address (`require_email` responses/events). -/
inductive GateDecision where
  | allow
  | requireEmail
  deriving DecidableEq, Repr

/-- Result payload of the email/skip endpoints. -/
structure EmailResult where
  success : Bool
  message : String
  deriving DecidableEq, Repr

/-- Python truthiness of the optional `request.email` field: absent or empty
string is falsy. -/
def emailTruthy : Option String → Bool
  | none => false
  | some e => !(e == "")

/-! ## POST /api/chat (api.py, non-streaming endpoint) -/

/-- The gate check of `chat` (api.py lines 249-259): block iff no e-mail on
file, no e-mail in the request, and the free limit is reached. -/
def chatGate (s : Session) (reqEmail : Option String) : GateDecision :=
  if !s.email_provided && !emailTruthy reqEmail
      && decide (FREE_QUERY_LIMIT ≤ s.query_count) then
    GateDecision.requireEmail
  else GateDecision.allow

/-- Effect of one `POST /api/chat` request on the session. When blocked, the
endpoint returns `require_email=true` without touching the session;
otherwise it saves a request e-mail if the session has none, then increments
`query_count` when `email_provided` is still false, then answers. -/
def chat (s : Session) (reqEmail : Option String) : Session × GateDecision :=
  match chatGate s reqEmail with
  | GateDecision.requireEmail => (s, GateDecision.requireEmail)
  | GateDecision.allow =>
    let s1 :=
      if emailTruthy reqEmail && !s.email_provided then
        { s with email_provided := true, user_email := reqEmail }
      else s
    let s2 :=
      if !s1.email_provided then { s1 with query_count := s1.query_count + 1 }
      else s1
    (s2, GateDecision.allow)

/-! ## POST /api/chat/stream (api.py, SSE endpoint) -/

/-- The gate logic of `chat_stream` (api.py lines 328-411): e-mail on file or
below the limit passes; exactly at the limit with no request e-mail, passes
only if the skip was already used; above the limit with no request e-mail,
always blocked; a (truthy) request e-mail always passes. -/
def streamGate (s : Session) (reqEmail : Option String) : GateDecision :=
  if s.email_provided then GateDecision.allow
  else if s.query_count < FREE_QUERY_LIMIT then GateDecision.allow
  else if s.query_count = FREE_QUERY_LIMIT then
    if !emailTruthy reqEmail then
      (if s.skip_count = 1 then GateDecision.allow else GateDecision.requireEmail)
    else GateDecision.allow
  else
    if !emailTruthy reqEmail then GateDecision.requireEmail else GateDecision.allow

/-- Effect of one `POST /api/chat/stream` request on the session. `ok` says
whether the `generate()` coroutine ran to completion (an exception inside it
skips the post-processing increment). A request e-mail is saved (with
`skip_count` reset to 0) only in the at-limit and over-limit branches, as in
the source; after streaming, `generate()` increments `query_count`
unconditionally — even when `email_provided` is true. -/
def chat_stream (s : Session) (reqEmail : Option String) (ok : Bool) :
    Session × GateDecision :=
  match streamGate s reqEmail with
  | GateDecision.requireEmail => (s, GateDecision.requireEmail)
  | GateDecision.allow =>
    let s1 :=
      if !s.email_provided && decide (FREE_QUERY_LIMIT ≤ s.query_count)
          && emailTruthy reqEmail then
        { s with email_provided := true, user_email := reqEmail, skip_count := 0 }
      else s
    (if ok then { s1 with query_count := s1.query_count + 1 } else s1,
     GateDecision.allow)

/-! ## POST /api/email/submit (api.py `submit_email`)

The handler mutates the session first and only then calls
`auth_manager.save_email_only`, whose failure (e.g. invalid format per
`validate_email`) surfaces as an HTTP 400 — here `success := false` — while
the mutation stands. MongoDB persistence is not modelled; with an
`auth_manager` present the outcome of `save_email_only` on a reachable
database is exactly its `validate_email` check. -/

def submit_email (s : Session) (email : String) : Session × EmailResult :=
  let s1 : Session :=
    { s with email_provided := true, user_email := some email, skip_count := 0 }
  if validate_email email then (s1, ⟨true, "Email saved successfully"⟩)
  else (s1, ⟨false, "Invalid email format"⟩)

/-! ## POST /api/email/skip (api.py `skip_email`) -/

def skip_email (s : Session) : Session × EmailResult :=
  if !(s.query_count = FREE_QUERY_LIMIT) then
    (s, ⟨false, "Skip not allowed at this stage."⟩)
  else if decide (1 ≤ s.skip_count) then
    (s, ⟨false, "Skip already used."⟩)
  else
    ({ s with skip_count := 1 },
     ⟨true, "Skip accepted. Please wait while we process your previous question."⟩)

/-! ## API event traces -/

/-- One API request touching a given session. `ok` on `stream` records
whether the SSE generator ran to completion. -/
inductive ApiEvent where
  | chatReq (reqEmail : Option String)
  | streamReq (reqEmail : Option String) (ok : Bool)
  | submitReq (email : String)
  | skipReq
  deriving DecidableEq, Repr

def apiStep (s : Session) (e : ApiEvent) : Session :=
  match e with
  | ApiEvent.chatReq r => (chat s r).1
  | ApiEvent.streamReq r ok => (chat_stream s r ok).1
  | ApiEvent.submitReq em => (submit_email s em).1
  | ApiEvent.skipReq => (skip_email s).1

def runApi (evs : List ApiEvent) (s : Session) : Session :=
  evs.foldl apiStep s

/-- The quota invariant of the spec: while anonymous, `query_count` is at
most the free limit plus the number of accepted skips, and at most one skip
is ever accepted (for reachable API sessions `skip_count` counts exactly the
accepted skips while `email_provided` is false). -/
def quotaInv (s : Session) : Bool :=
  s.email_provided
    || (decide (s.query_count ≤ FREE_QUERY_LIMIT + s.skip_count)
        && decide (s.skip_count ≤ 1))

/-! ## UI state machine (UI.py `current_session` and handlers; chat-history
rendering is not part of the session state and is omitted, as is the
`session_id` token, which no gating logic reads) -/

structure UISession where
  query_count : Nat
  email_provided : Bool
  user_email : Option String
  skip_count : Nat
  pending_message : Option String
  deriving DecidableEq, Repr

def uiInit : UISession := ⟨0, false, none, 0, none⟩

/-- `process_normal_message` (UI.py lines 174-204): with an e-mail on file,
no counter changes; otherwise `query_count` is incremented *before* the
limit check, and an over-limit message is stored as pending instead of being
processed. -/
def process_normal_message (s : UISession) (message : String) : UISession :=
  if s.email_provided then s
  else
    let s1 : UISession := { s with query_count := s.query_count + 1 }
    if decide (s1.query_count ≤ FREE_QUERY_LIMIT) then s1
    else { s1 with pending_message := some message }

/-- `handle_skip_email` (UI.py lines 229-252). The boolean reports whether
the pending message was (re)processed; processing it (`run_query`) does not
touch any counter. -/
def handle_skip_email (s : UISession) : UISession × Bool :=
  match s.pending_message with
  | none => (s, false)
  | some _ =>
    if s.skip_count = 0 then
      ({ s with skip_count := 1, pending_message := none }, true)
    else (s, false)

/-- `handle_email_submission` plus `submit_email` (UI.py lines 75-93 and
206-227): empty or invalid e-mail fails with no session change; success sets
the e-mail, clears the pending message and resets the skip allowance. -/
def handle_email_submission (s : UISession) (email : String) : UISession × Bool :=
  if (pyStrip email.data).isEmpty then (s, false)
  else if validate_email email then
    ({ s with email_provided := true, user_email := some email,
              pending_message := none, skip_count := 0 }, true)
  else (s, false)

/-! ## POST /api/session/clear (api.py `clear_session`) -/

/-- The session store `sessions` as a map from id to session. `clear_session`
deletes the entry if present and always reports success. -/
def clear_session (store : String → Option Session) (sid : String) :
    (String → Option Session) × Bool × String :=
  (match store sid with
   | some _ => fun k => if k = sid then none else store k
   | none => store,
   true, "Session cleared")

/-! ## Answer formatter (chatbot.py `_parse_and_format_response`) -/

def qmark : Char := Char.ofNat 34
def bslash : Char := '\\'
def lbrace : Char := Char.ofNat 123
def rbrace : Char := Char.ofNat 125
def dblLt : List Char := "<<".data
def dblGt : List Char := ">>".data

def mdStart : List Char := "<<MARKDOWN_TABLE>>".data
def mdEnd : List Char := "<<END_MARKDOWN_TABLE>>".data
def jsStart : List Char := "<<TABLE_JSON>>".data
def jsEnd : List Char := "<<END_TABLE_JSON>>".data

/-- Leftmost, shortest match of the regex `start(.*?)end` (DOTALL): the
first occurrence of the start tag, then the first occurrence of the end tag
after it; returns `(before, group, after)`. If the first start tag has no
end tag after it, no later start tag has one either, so there is no match
at all. -/
def splitBlock (st en s : List Char) : Option (List Char × List Char × List Char) :=
  match findSub st s with
  | none => none
  | some i =>
    let rest := s.drop (i + st.length)
    match findSub en rest with
    | none => none
    | some j =>
      some (s.take i, rest.take j, rest.drop (j + en.length))

/-- Group 1 of `re.search(start + '(.*?)' + end, s, re.DOTALL)`. -/
def searchBlock (st en s : List Char) : Option (List Char) :=
  (splitBlock st en s).map (fun p => p.2.1)

/-- `re.sub(start + '.*?' + end, repl, s, flags=re.DOTALL)` for a
replacement without backslashes (Python additionally expands backslash
escapes in replacement templates; callers return `none` for replacements
containing a backslash instead of modelling that expansion). Fuel of at
least `s.length + 1` is enough: every match consumes at least one
character. -/
def subBlockAux (st en repl : List Char) : Nat → List Char → List Char
  | 0, s => s
  | fuel + 1, s =>
    match splitBlock st en s with
    | none => s
    | some (before, _, after) => before ++ repl ++ subBlockAux st en repl fuel after

def subBlock (st en repl s : List Char) : List Char :=
  subBlockAux st en repl (s.length + 1) s

/-- `re.sub` of a literal nonempty pattern by a literal replacement. -/
def subLitAux (pat repl : List Char) : Nat → List Char → List Char
  | _, [] => []
  | 0, s => s
  | fuel + 1, c :: rest =>
    if isStartOf pat (c :: rest) then
      repl ++ subLitAux pat repl fuel (List.drop (pat.length - 1) rest)
    else c :: subLitAux pat repl fuel rest

def subLit (pat repl s : List Char) : List Char :=
  subLitAux pat repl (s.length + 1) s

/-- Split at the first `>`: `(maximal >-free prefix, rest)`. -/
def takeNoGt : List Char → List Char × List Char
  | [] => ([], [])
  | c :: rest =>
    if c = '>' then ([], c :: rest)
    else
      let p := takeNoGt rest
      (c :: p.1, p.2)

/-- `re.sub(r'<<([^>]*)>>', '', s)`: at each position, `<<` followed by a
maximal `>`-free run followed by `>>` is removed (backtracking cannot
shorten the greedy run, since the run may only be followed by `>`). -/
def straySubAux : Nat → List Char → List Char
  | 0, s => s
  | _, [] => []
  | fuel + 1, c :: rest =>
    if isStartOf dblLt (c :: rest) then
      let p := takeNoGt (rest.drop 1)
      if isStartOf dblGt p.2 then straySubAux fuel (p.2.drop 2)
      else c :: straySubAux fuel rest
    else c :: straySubAux fuel rest

/-! ### JSON (`json.loads`) as used by the TABLE_JSON branch.

Numbers with a fractional part or exponent (and the Python extensions
NaN/Infinity) parse to floats, whose decimal re-formatting is
floating-point behaviour outside this embedding; the parser below treats
them as unparseable. No theorem in this file depends on such inputs. -/

inductive JValue where
  | jnull
  | jbool (b : Bool)
  | jint (n : Int)
  | jstr (s : List Char)
  | jarr (elems : List JValue)
  | jobj (fields : List (List Char × JValue))

def skipJWs (l : List Char) : List Char :=
  l.dropWhile (fun c => c = ' ' || c = '\t' || c = '\n' || c = '\r')

def hexVal (c : Char) : Option Nat :=
  if c.isDigit then some (c.toNat - '0'.toNat)
  else if 'a' ≤ c ∧ c ≤ 'f' then some (c.toNat - 'a'.toNat + 10)
  else if 'A' ≤ c ∧ c ≤ 'F' then some (c.toNat - 'A'.toNat + 10)
  else none

/-- JSON string body after the opening quote, strict mode: raw control
characters are rejected, only the standard escapes are accepted; `\uXXXX`
maps through `Char.ofNat` (lone surrogates, which a Lean `Char` cannot
represent, are outside this model; no theorem depends on them). -/
def parseJString : Nat → List Char → Option (List Char × List Char)
  | 0, _ => none
  | fuel + 1, l =>
    match l with
    | [] => none
    | c :: rest =>
      if c = qmark then some ([], rest)
      else if c = bslash then
        match rest with
        | [] => none
        | e :: rest2 =>
          if e = qmark then (parseJString fuel rest2).map (fun p => (qmark :: p.1, p.2))
          else if e = bslash then (parseJString fuel rest2).map (fun p => (bslash :: p.1, p.2))
          else if e = '/' then (parseJString fuel rest2).map (fun p => ('/' :: p.1, p.2))
          else if e = 'b' then (parseJString fuel rest2).map (fun p => (Char.ofNat 8 :: p.1, p.2))
          else if e = 'f' then (parseJString fuel rest2).map (fun p => (Char.ofNat 12 :: p.1, p.2))
          else if e = 'n' then (parseJString fuel rest2).map (fun p => ('\n' :: p.1, p.2))
          else if e = 'r' then (parseJString fuel rest2).map (fun p => ('\r' :: p.1, p.2))
          else if e = 't' then (parseJString fuel rest2).map (fun p => ('\t' :: p.1, p.2))
          else if e = 'u' then
            match rest2 with
            | h1 :: h2 :: h3 :: h4 :: rest3 =>
              match hexVal h1, hexVal h2, hexVal h3, hexVal h4 with
              | some a, some b, some c2, some d =>
                (parseJString fuel rest3).map
                  (fun p => (Char.ofNat (((a * 16 + b) * 16 + c2) * 16 + d) :: p.1, p.2))
              | _, _, _, _ => none
            | _ => none
          else none
      else if c.toNat < 32 then none
      else (parseJString fuel rest).map (fun p => (c :: p.1, p.2))

def digitsToNat (l : List Char) : Nat :=
  l.foldl (fun acc c => acc * 10 + (c.toNat - '0'.toNat)) 0

def mkInt (neg : Bool) (digits : List Char) : Int :=
  if neg then -(digitsToNat digits : Int) else (digitsToNat digits : Int)

/-- JSON integer literal `-?(0|[1-9][0-9]*)`, rejected when followed by `.`,
`e` or `E` (a float, see above). -/
def parseJNumber (l : List Char) : Option (Int × List Char) :=
  let p0 : Bool × List Char :=
    match l with
    | c :: rest => if c = '-' then (true, rest) else (false, l)
    | [] => (false, l)
  match p0.2 with
  | [] => none
  | d :: rest =>
    if !d.isDigit then none
    else
      let digits := if d = '0' then [d] else (d :: rest).takeWhile Char.isDigit
      let remainder := if d = '0' then rest else (d :: rest).dropWhile Char.isDigit
      match remainder with
      | c :: _ =>
        if c = '.' || c = 'e' || c = 'E' then none
        else some (mkInt p0.1 digits, remainder)
      | [] => some (mkInt p0.1 digits, remainder)

mutual

def parseJValue : Nat → List Char → Option (JValue × List Char)
  | 0, _ => none
  | fuel + 1, l0 =>
    let l := skipJWs l0
    match l with
    | [] => none
    | c :: rest =>
      if c = lbrace then
        match skipJWs rest with
        | d :: rest2 =>
          if d = rbrace then some (JValue.jobj [], rest2)
          else parseJMembers fuel (d :: rest2) []
        | [] => none
      else if c = '[' then
        match skipJWs rest with
        | d :: rest2 =>
          if d = ']' then some (JValue.jarr [], rest2)
          else parseJItems fuel (d :: rest2) []
        | [] => none
      else if c = qmark then
        (parseJString fuel rest).map (fun p => (JValue.jstr p.1, p.2))
      else if isStartOf "true".data l then some (JValue.jbool true, l.drop 4)
      else if isStartOf "false".data l then some (JValue.jbool false, l.drop 5)
      else if isStartOf "null".data l then some (JValue.jnull, l.drop 4)
      else
        (parseJNumber l).map (fun p => (JValue.jint p.1, p.2))

def parseJItems : Nat → List Char → List JValue → Option (JValue × List Char)
  | 0, _, _ => none
  | fuel + 1, l, acc =>
    match parseJValue fuel l with
    | none => none
    | some (v, rest) =>
      match skipJWs rest with
      | c :: rest2 =>
        if c = ',' then parseJItems fuel rest2 (acc ++ [v])
        else if c = ']' then some (JValue.jarr (acc ++ [v]), rest2)
        else none
      | [] => none

def parseJMembers : Nat → List Char → List (List Char × JValue) →
    Option (JValue × List Char)
  | 0, _, _ => none
  | fuel + 1, l, acc =>
    match l with
    | c :: rest =>
      if c = qmark then
        match parseJString fuel rest with
        | none => none
        | some (key, rest2) =>
          match skipJWs rest2 with
          | d :: rest3 =>
            if d = ':' then
              match parseJValue fuel rest3 with
              | none => none
              | some (v, rest4) =>
                match skipJWs rest4 with
                | e :: rest5 =>
                  if e = ',' then
                    match skipJWs rest5 with
                    | f :: rest6 => parseJMembers fuel (f :: rest6) (acc ++ [(key, v)])
                    | [] => none
                  else if e = rbrace then
                    some (JValue.jobj (acc ++ [(key, v)]), rest5)
                  else none
                | [] => none
            else none
          | [] => none
      else none
    | [] => none

end

/-- `json.loads`, requiring the whole input to be consumed. The fuel
`2 * length + 2` dominates the recursion depth: every two fuel steps consume
at least one input character. -/
def jsonLoads (l : List Char) : Option JValue :=
  match parseJValue (2 * l.length + 2) l with
  | none => none
  | some (v, rest) => if (skipJWs rest).isEmpty then some v else none

/-- Lookup in a Python dict built from JSON object members: a later
duplicate key overwrites the earlier value. -/
def jGet (fields : List (List Char × JValue)) (key : List Char) : Option JValue :=
  fields.foldl (fun acc p => if p.1 = key then some p.2 else acc) none

/-- Keys of a Python dict in iteration (first-insertion) order. -/
def dictKeys (fields : List (List Char × JValue)) : List (List Char) :=
  fields.foldl (fun acc p => if acc.contains p.1 then acc else acc ++ [p.1]) []

def joinSep (sep : List Char) : List (List Char) → List Char
  | [] => []
  | [x] => x
  | x :: y :: rest => x ++ sep ++ joinSep sep (y :: rest)

/-- Escaping inside Python `repr` of a `str`, given the chosen quote. -/
def pyReprStrEsc (q : Char) : List Char → List Char
  | [] => []
  | c :: rest =>
    (if c = bslash then [bslash, bslash]
     else if c = q then [bslash, q]
     else if c = '\n' then [bslash, 'n']
     else if c = '\r' then [bslash, 'r']
     else if c = '\t' then [bslash, 't']
     else [c]) ++ pyReprStrEsc q rest

/-- Python `repr` of a `str`: single quotes, or double quotes when the
string contains a single quote but no double quote; common escapes only
(Python additionally hex-escapes unprintable characters, which do not occur
in any input considered below). -/
def pyReprStr (l : List Char) : List Char :=
  let apos := Char.ofNat 39
  let q := if l.contains apos && !l.contains qmark then qmark else apos
  q :: (pyReprStrEsc q l ++ [q])

/-- Python `repr` of a JSON-derived value; the fuel dominates the nesting
depth (callers pass the length of the parsed text, which does). -/
def pyReprFuel : Nat → JValue → List Char
  | 0, _ => []
  | fuel + 1, v =>
    match v with
    | JValue.jnull => "None".data
    | JValue.jbool true => "True".data
    | JValue.jbool false => "False".data
    | JValue.jint n => (toString n).data
    | JValue.jstr s => pyReprStr s
    | JValue.jarr l =>
      "[".data ++ joinSep ", ".data (l.map (pyReprFuel fuel)) ++ "]".data
    | JValue.jobj f =>
      [lbrace] ++
        joinSep ", ".data ((dictKeys f).map
          (fun k => pyReprStr k ++ ": ".data ++ pyReprFuel fuel ((jGet f k).getD JValue.jnull)))
        ++ [rbrace]

/-- Python `str(cell)` for a JSON-derived value: a `str` prints verbatim,
containers print via `repr` of their elements. -/
def pyStrJ (fuel : Nat) (v : JValue) : List Char :=
  match v with
  | JValue.jstr s => s
  | JValue.jnull => "None".data
  | JValue.jbool true => "True".data
  | JValue.jbool false => "False".data
  | JValue.jint n => (toString n).data
  | JValue.jarr l => pyReprFuel (fuel + 1) (JValue.jarr l)
  | JValue.jobj f => pyReprFuel (fuel + 1) (JValue.jobj f)

/-- Python iteration over a JSON-derived value, as used by `str.join`,
`for row in rows` and `for cell in row`: a list yields its elements, a
string its characters, a dict its keys; other values raise `TypeError`
(`none`, an uncaught exception). -/
def pyIter : JValue → Option (List JValue)
  | JValue.jarr l => some l
  | JValue.jstr s => some (s.map (fun c => JValue.jstr [c]))
  | JValue.jobj f => some ((dictKeys f).map JValue.jstr)
  | _ => none

/-- `" | ".join(xs)` requires every iterated element to be a `str`. -/
def pyJoinStrs : List JValue → Option (List (List Char))
  | [] => some []
  | JValue.jstr s :: rest => (pyJoinStrs rest).map (fun t => s :: t)
  | _ => none

/-- The table rows loop (chatbot.py lines 317-321): each row is iterated,
`None` cells become empty strings, other cells print via `str`. -/
def rowLines (fuel : Nat) : List JValue → Option (List Char)
  | [] => some []
  | r :: rest =>
    match pyIter r with
    | none => none
    | some cells =>
      let formatted := cells.map (fun c =>
        match c with
        | JValue.jnull => []
        | c => pyStrJ fuel c)
      (rowLines fuel rest).map (fun t =>
        "| ".data ++ joinSep " | ".data formatted ++ " |\n".data ++ t)

/-- The TABLE_JSON branch body (chatbot.py lines 305-329) on the parsed
JSON: build the Markdown table. `none` models an uncaught `TypeError` /
`AttributeError` (result of `json.loads` not a dict, non-string headers,
non-iterable rows, ...); the source guards only against `JSONDecodeError`. -/
def buildMarkdownTable (fuel : Nat) (v : JValue) : Option (List Char) :=
  match v with
  | JValue.jobj fields =>
    let headers := (jGet fields "headers".data).getD (JValue.jarr [])
    let rows := (jGet fields "rows".data).getD (JValue.jarr [])
    match pyIter headers with
    | none => none
    | some hitems =>
      match pyJoinStrs hitems with
      | none => none
      | some hs =>
        match pyIter rows with
        | none => none
        | some ritems =>
          match rowLines fuel ritems with
          | none => none
          | some lns =>
            some ("\n| ".data ++ joinSep " | ".data hs ++ " |\n".data
              ++ "|".data ++ joinSep "|".data (hs.map (fun _ => "---".data))
              ++ "|\n".data ++ lns)
  | _ => none

/-- The final marker-stripping fallthrough (chatbot.py lines 334-341). -/
def fallthroughClean (raw : List Char) : List Char :=
  let c1 := subLit mdStart [] raw
  let c2 := subLit mdEnd [] c1
  let c3 := subBlock jsStart jsEnd [] c2
  pyStrip (straySubAux (c3.length + 1) c3)

/-- `_parse_and_format_response` (chatbot.py lines 273-341). `none` models
an uncaught Python exception escaping the function (the source catches only
`JSONDecodeError`); a replacement string containing a backslash would
trigger backslash-escape expansion of the `re.sub` replacement template and
is likewise mapped to `none` (no theorem depends on such inputs). -/
def parse_and_format_response (raw : List Char) : Option (List Char) :=
  match searchBlock mdStart mdEnd raw with
  | some content =>
    let markdown_table := pyStrip content
    if markdown_table.contains bslash then none
    else
      let c1 := subBlock jsStart jsEnd [] raw
      let c2 := subBlock mdStart mdEnd markdown_table c1
      some (pyStrip c2)
  | none =>
    match searchBlock jsStart jsEnd raw with
    | some jcontent =>
      match jsonLoads (pyStrip jcontent) with
      | some v =>
        match buildMarkdownTable (jcontent.length + 1) v with
        | none => none
        | some md =>
          if md.contains bslash then none
          else some (pyStrip (subBlock jsStart jsEnd md raw))
      | none => some (fallthroughClean raw)
    | none => some (fallthroughClean raw)

/-- `_parse_and_format_response` on `String`. -/
def pfrStr (s : String) : Option String :=
  (parse_and_format_response s.data).map ofChars


/-! ## Retrieved passages and source formatting (chatbot.py `_format_sources`) -/

/-- One retrieved passage: `page_content` plus the metadata fields the core
reads (`chunk_type`, `title`, `url`, `source`); `none` models an absent
metadata key. -/
structure Doc where
  page_content : String
  chunk_type : Option String
  title : Option String
  url : Option String
  source : Option String
  deriving DecidableEq, Repr

/-- The ranking score (chatbot.py lines 239-253): +2 for the `srmist` brand
token in title or URL (the URL falling back to `source` when the `url` key
is missing or its value empty), +1 for a title longer than 20 characters
that is not the generic placeholder, +1 for content longer than 500
characters. -/
def docScore (d : Doc) : Nat :=
  let title := d.title.getD ""
  let url :=
    match d.url with
    | some u => if u = "" then d.source.getD "" else u
    | none => d.source.getD ""
  (if hasSubStr "srmist" (pyLower title) || hasSubStr "srmist" (pyLower url)
   then 2 else 0)
  + (if decide (20 < title.length) && !(title == "University Information")
     then 1 else 0)
  + (if decide (500 < d.page_content.length) then 1 else 0)

/-- Stable insertion into a score-descending list: the new entry goes after
every entry of score ≥ its own (`list.sort(..., reverse=True)` is stable). -/
def insertDesc (x : Nat × Doc) : List (Nat × Doc) → List (Nat × Doc)
  | [] => [x]
  | y :: ys => if y.1 < x.1 then x :: y :: ys else y :: insertDesc x ys

/-- Stable descending sort by score. -/
def sortDescList (l : List (Nat × Doc)) : List (Nat × Doc) :=
  l.foldl (fun acc x => insertDesc x acc) []

def scoredDocs (docs : List Doc) : List (Nat × Doc) :=
  docs.map (fun d => (docScore d, d))

/-- `scored_docs` sorted descending, cut to `min(3, len(scored_docs))`. -/
def selected_docs (docs : List Doc) : List Doc :=
  ((sortDescList (scoredDocs docs)).take
    (min 3 (sortDescList (scoredDocs docs)).length)).map Prod.snd

/-- One numbered entry (chatbot.py lines 262-269): entries with a missing,
empty or `"Unknown"` URL are omitted; a title longer than 60 characters is
truncated to its first 57 characters plus `...`. -/
def render_source (i : Nat) (d : Doc) : String :=
  let title := d.title.getD "University Information"
  let source_url := d.url.getD ""
  if source_url ≠ "" ∧ source_url ≠ "Unknown" then
    (if decide (60 < title.length) then
      toString i ++ ". [" ++ ofChars (title.data.take 57) ++ "...]("
        ++ source_url ++ ")\n"
    else
      toString i ++ ". [" ++ title ++ "](" ++ source_url ++ ")\n")
  else ""

def render_entries : Nat → List Doc → String
  | _, [] => ""
  | i, d :: rest => render_source i d ++ render_entries (i + 1) rest

/-- `_format_sources` (chatbot.py lines 232-271). -/
def format_sources (docs : List Doc) : String :=
  if docs.isEmpty then ""
  else "\n\n \n" ++ render_entries 1 (selected_docs docs)

/-! ## Generation adapter streaming (llm_config.py `GeminiLLM.stream`) -/

def geminiErrorMsg : String :=
  "I" ++ apos
    ++ "m having trouble processing your request right now. Please try again later."

/-- One backend attempt: the chunk texts delivered before the attempt either
completes (`fails = false`) or raises mid-stream (`fails = true`). -/
structure Attempt where
  chunks : List String
  fails : Bool
  deriving DecidableEq, Repr

/-- Prompt truncation (llm_config.py lines 104-105). -/
def truncatePrompt (p : String) : String :=
  if decide (30000 < p.length) then ofChars (p.data.take 30000) ++ "...[truncated]"
  else p

/-- The retry loop of `stream`: `fuel` counts the remaining attempts of
`range(max_retries)`, `i` the current attempt index; a failure on the last
attempt appends the degraded message, earlier failures restart the stream
from scratch. Only non-empty chunk texts are yielded (`if chunk.text`). -/
def geminiGo (att : Nat → Attempt) : Nat → Nat → List String
  | 0, _ => []
  | fuel + 1, i =>
    let a := att i
    let out := a.chunks.filter (fun c => !(c == ""))
    if !a.fails then out
    else if fuel = 0 then out ++ [geminiErrorMsg]
    else out ++ geminiGo att fuel (i + 1)

/-- `GeminiLLM.stream` (llm_config.py lines 89-130): empty prompts
short-circuit with a fixed message, long prompts are truncated, then up to
`maxRetries` attempts run against the backend. The backend is abstracted as
the per-attempt outcome for the (truncated) prompt; the sleep between
attempts has no observable effect on the emitted sequence. -/
def gemini_stream (maxRetries : Nat) (prompt : String)
    (backend : String → Nat → Attempt) : List String :=
  if (pyStrip prompt.data).isEmpty then ["Please provide a valid question."]
  else geminiGo (backend (truncatePrompt prompt)) maxRetries 0

/-! ## Streaming pipeline (chatbot.py `_query_streaming` and the SSE adapter
api.py `chat_stream.generate`) -/

/-- One emitted streaming event (`{"content", "sources", "done"}`). -/
structure StreamEvent where
  content : String
  sources : String
  done : Bool
  deriving DecidableEq, Repr

def GREETING_KEYWORDS : List String :=
  ["hi", "hello", "hey", "good morning", "good evening",
   "good afternoon", "how are you", "what" ++ apos ++ "s up", "howdy"]

def GREETING_RESPONSES : List String :=
  ["Hi there! How can I help you with university information today?",
   "Hello! I" ++ apos ++ "m here to assist you with any university-related questions.",
   "Hey! What would you like to know about the university?",
   "Good day! I" ++ apos ++ "m ready to help with your university queries.",
   "Hi! Feel free to ask me anything about the university."]

def datePhrases : List String :=
  ["what is the date", "what" ++ apos ++ "s the date", "current date",
   "today" ++ apos ++ "s date", "what date is it"]

def timePhrases : List String :=
  ["what time", "current time", "what" ++ apos ++ "s the time"]

def tableKeys : List String :=
  ["Degree", "Fees", "Branch", "Duration", "Room Type", "Hostel", "Fee",
   "Annual", "Sharing"]

def uncertainty_indicators : List String :=
  ["i don" ++ apos ++ "t have", "not available", "i cannot find",
   "not enough information", "limited information",
   "don" ++ apos ++ "t have current information", "check the university",
   "please contact", "i" ++ apos ++ "m not sure", "unable to find"]

def important_topics : List String :=
  ["fee", "fees", "cost", "price", "tuition",
   "admission", "eligibility", "requirement", "apply",
   "deadline", "last date", "due date",
   "scholarship", "financial aid",
   "hostel", "accommodation", "mess",
   "placement", "internship", "job",
   "contact", "email", "phone", "address",
   "course", "curriculum", "syllabus", "program",
   "exam", "schedule", "timetable", "calendar"]

def specific_data_indicators : List String :=
  ["₹", "rupees", "inr", "rs.",
   "@", ".com", ".in", ".edu",
   "phone:", "tel:", "contact:",
   "deadline:", "last date:",
   "eligibility:", "requirement:"]

def conversational_indicators : List String :=
  ["hi there", "hello", "how can i help", "feel free to ask",
   "anything else", "you" ++ apos ++ "re welcome", "glad to help",
   "happy to assist"]

/-- `_should_show_sources` (chatbot.py lines 161-230): the ordered rule
list, first match wins. -/
def should_show_sources (answer context : String) (docs : List Doc)
    (question : String) : Bool :=
  let answer_lower := pyLower answer
  let question_lower := pyLower question
  if uncertainty_indicators.any (fun p => hasSubStr p answer_lower) then true
  else if important_topics.any (fun p => hasSubStr p question_lower) then true
  else if decide (500 < answer.length) then true
  else if specific_data_indicators.any (fun p => hasSubStr p answer_lower) then true
  else if conversational_indicators.any (fun p => hasSubStr p answer_lower) then false
  else if decide (answer.length < 100) then answer.data.any Char.isDigit
  else if decide (2 ≤ docs.length) && decide (300 < context.length) then true
  else false

/-- `_handle_no_relevant_docs` (chatbot.py lines 144-159). -/
def handle_no_relevant_docs (question : String) : String × String :=
  if hasSubStr "event" (pyLower question) || hasSubStr "upcoming" (pyLower question) then
    ("I don" ++ apos ++ "t have current information about upcoming events in my "
      ++ "database. Please check the university" ++ apos ++ "s official website or "
      ++ "contact the student affairs office for the latest event schedule.", "")
  else
    ("I don" ++ apos ++ "t have specific information about that topic in my "
      ++ "database. Could you please rephrase your question or ask about something "
      ++ "more specific to the university?", "")

/-- `_build_structured_context` loop (chatbot.py lines 104-136): deduplicate
by stripped content, wrap by `chunk_type` or the key:value heuristic. -/
def buildContextParts (seen : List String) : List Doc → List String
  | [] => []
  | d :: rest =>
    let content := pyStripStr d.page_content
    if seen.contains content then buildContextParts seen rest
    else
      let part :=
        if (d.chunk_type.getD "") == "table_complete" then
          "\n=== TABLE DATA START ===\n" ++ content ++ "\n=== TABLE DATA END ===\n"
        else if (d.chunk_type.getD "") == "section_h1"
            || (d.chunk_type.getD "") == "section_h2" then
          "\n## " ++ content ++ "\n"
        else if hasSubStr ":" content
            && tableKeys.any (fun k => hasSubStr k content) then
          "\n[TABLE ROW DATA]\n" ++ content ++ "\n[END TABLE ROW]\n"
        else content
      part :: buildContextParts (seen ++ [content]) rest

def joinSepStr (sep : String) : List String → String
  | [] => ""
  | [x] => x
  | x :: y :: rest => x ++ sep ++ joinSepStr sep (y :: rest)

def build_structured_context (docs : List Doc) : String :=
  joinSepStr "\n\n" (buildContextParts [] docs)

def queryErrorMsg : String :=
  "I encountered an error processing your question. Please try again."

/-- The environment of one streamed query: whether the retriever raises, the
retrieved documents, the configured `top_k`, the abstract LLM chunk stream,
the index drawn by `random.choice` for greetings, and the formatted
date/time strings of `datetime.now()`. The prompt built by `get_rag_prompt`
only feeds the abstracted LLM and does not influence the event stream. -/
structure StreamEnv where
  retrieverFails : Bool
  docs : List Doc
  topK : Nat
  chunks : List String
  greetIdx : Nat
  nowDate : String
  nowTime : String
  deriving DecidableEq, Repr

/-- The chunk loop of `_query_streaming` (chatbot.py lines 520-525): each
chunk extends the accumulated buffer, which is re-formatted and emitted with
`done=false`; a formatter exception aborts into the generic error event.
Returns the emitted events and, if no exception, the final buffer. -/
def streamLoop (acc : String) : List String → List StreamEvent × Option String
  | [] => ([], some acc)
  | c :: rest =>
    let acc2 := acc ++ c
    match parse_and_format_response acc2.data with
    | none => ([⟨queryErrorMsg, "", true⟩], none)
    | some parsed =>
      let p := streamLoop acc2 rest
      (⟨ofChars parsed, "", false⟩ :: p.1, p.2)

/-- Tail of `_query_streaming` (chatbot.py lines 519-543): the chunk loop,
then the final event with sources — or the generic error event if the
formatter raises. -/
def streamMainEvents (env : StreamEnv) (question context : String)
    (filtered : List Doc) : List StreamEvent :=
  let p := streamLoop "" env.chunks
  match p.2 with
  | none => p.1
  | some acc =>
    match parse_and_format_response acc.data with
    | none => p.1 ++ [⟨queryErrorMsg, "", true⟩]
    | some final_answer =>
      let sources_info :=
        if should_show_sources (ofChars final_answer) context filtered question
        then format_sources filtered else ""
      p.1 ++ [⟨ofChars final_answer, sources_info, true⟩]

/-- The part of `_query_streaming` past the fast paths (chatbot.py lines
494-543): filter and assemble the context, truncate it, answer directly when
it is too thin, otherwise run the chunk loop. -/
def streamDocsEvents (env : StreamEnv) (question : String) : List StreamEvent :=
  let filtered := env.docs.take env.topK
  let context0 := build_structured_context filtered
  let context :=
    if decide (20000 < context0.length)
    then ofChars (context0.data.take 20000) ++ "...[truncated]" else context0
  if decide (context.length < 100) then
    [⟨"I found some related information, but it" ++ apos ++ "s not detailed "
        ++ "enough to provide a comprehensive answer. Please try rephrasing "
        ++ "your question or ask about a more specific topic.", "", true⟩]
  else streamMainEvents env question context filtered

/-- `_query_streaming` (chatbot.py lines 442-543). -/
def query_streaming (env : StreamEnv) (question : String) : List StreamEvent :=
  if question == "" || (pyStrip question.data).isEmpty then
    [⟨"Please ask a question about the university.", "", true⟩]
  else if decide (1000 < question.length) then
    [⟨"Please keep your questions under 1000 characters.", "", true⟩]
  else if datePhrases.any (fun p => hasSubStr p (pyLower question)) then
    [⟨"Today" ++ apos ++ "s date is " ++ env.nowDate ++ ".", "", true⟩]
  else if timePhrases.any (fun p => hasSubStr p (pyLower question)) then
    [⟨"The current time is " ++ env.nowTime ++ ".", "", true⟩]
  else if GREETING_KEYWORDS.any (fun g => hasSubStr g (pyLower question))
      && decide (wordCount question.data ≤ 3) then
    [⟨GREETING_RESPONSES.getD (env.greetIdx % GREETING_RESPONSES.length) "", "", true⟩]
  else if env.retrieverFails then
    [⟨"I" ++ apos ++ "m having trouble accessing the knowledge base. "
        ++ "Please try again.", "", true⟩]
  else if env.docs.isEmpty then
    [⟨(handle_no_relevant_docs question).1, (handle_no_relevant_docs question).2, true⟩]
  else if (env.docs.take env.topK).isEmpty then
    [⟨(handle_no_relevant_docs question).1, (handle_no_relevant_docs question).2, true⟩]
  else streamDocsEvents env question

/-- The SSE adapter `chat_stream.generate` (api.py lines 414-448): every
chatbot event is forwarded, non-empty content/sources are latched, and a
final `done=true` event repeats the latched state — in addition to the
chatbot's own final `done=true` event. -/
def generateSSEGo (acc src : String) : List StreamEvent → List StreamEvent
  | [] => [⟨acc, src, true⟩]
  | e :: rest =>
    e :: generateSSEGo (if e.content == "" then acc else e.content)
      (if e.sources == "" then src else e.sources) rest

def generateSSE (evs : List StreamEvent) : List StreamEvent :=
  generateSSEGo "" "" evs


/-! ## Helper lemmas about the API state machine -/

theorem apiStep_preserves_email (s : Session) (e : ApiEvent)
    (h : s.email_provided = true) : (apiStep s e).email_provided = true := by
  rcases s with ⟨qc, ep, ue, sk⟩
  cases ep
  · cases h
  · cases e <;>
      simp [apiStep, chat, chatGate, chat_stream, streamGate, submit_email,
        skip_email] <;>
      split_ifs <;> rfl

theorem runApi_preserves_email (evs : List ApiEvent) :
    ∀ s : Session, s.email_provided = true → (runApi evs s).email_provided = true := by
  induction evs with
  | nil => intro s h; exact h
  | cons e rest ih =>
    intro s h
    simp only [runApi, List.foldl_cons]
    exact ih _ (apiStep_preserves_email s e h)

theorem quotaInv_chat (s : Session) (r : Option String) (h : quotaInv s = true) :
    quotaInv (chat s r).1 = true := by
  rcases s with ⟨qc, ep, ue, sk⟩
  cases ep <;> rcases r with _ | e <;>
    simp_all [quotaInv, chat, chatGate, emailTruthy, FREE_QUERY_LIMIT] <;>
    split_ifs <;> simp_all <;> omega

theorem quotaInv_stream (s : Session) (r : Option String) (ok : Bool)
    (h : quotaInv s = true) : quotaInv (chat_stream s r ok).1 = true := by
  rcases s with ⟨qc, ep, ue, sk⟩
  cases ep <;> rcases r with _ | e <;> cases ok <;>
    simp_all [quotaInv, chat_stream, streamGate, emailTruthy, FREE_QUERY_LIMIT] <;>
    split_ifs <;> simp_all <;> omega

theorem quotaInv_submit (s : Session) (em : String) :
    quotaInv (submit_email s em).1 = true := by
  rcases s with ⟨qc, ep, ue, sk⟩
  simp [quotaInv, submit_email]
  split_ifs <;> simp

theorem quotaInv_skip (s : Session) (h : quotaInv s = true) :
    quotaInv (skip_email s).1 = true := by
  rcases s with ⟨qc, ep, ue, sk⟩
  cases ep <;>
    simp_all [quotaInv, skip_email, FREE_QUERY_LIMIT] <;>
    split_ifs <;> simp_all <;> omega

theorem quotaInv_step (s : Session) (e : ApiEvent) (h : quotaInv s = true) :
    quotaInv (apiStep s e) = true := by
  cases e with
  | chatReq r => exact quotaInv_chat s r h
  | streamReq r ok => exact quotaInv_stream s r ok h
  | submitReq em => exact quotaInv_submit s em
  | skipReq => exact quotaInv_skip s h

theorem quotaInv_run (evs : List ApiEvent) :
    ∀ s : Session, quotaInv s = true → quotaInv (runApi evs s) = true := by
  induction evs with
  | nil => intro s h; exact h
  | cons e rest ih =>
    intro s h
    simp only [runApi, List.foldl_cons]
    exact ih _ (quotaInv_step s e h)

/-! ## Claim theorems: session/quota state machine -/

/-- C1 counterexample. For the session exactly at the free limit with no
skip used, the skip request is accepted (and only sets `skip_count := 1`),
but the subsequent streaming processing of the resent pending message is
allowed and *does* increment `query_count` (from 2 to 3), contradicting the
claim that the replay leaves `query_count` unchanged. -/
theorem skip_replay_counterexample :
    (skip_email ⟨2, false, none, 0⟩).2.success = true ∧
    (skip_email ⟨2, false, none, 0⟩).1.skip_count = 1 ∧
    (chat_stream (skip_email ⟨2, false, none, 0⟩).1 none true).2 = GateDecision.allow ∧
    (chat_stream (skip_email ⟨2, false, none, 0⟩).1 none true).1.query_count = 3 ∧
    ¬((chat_stream (skip_email ⟨2, false, none, 0⟩).1 none true).1.query_count
        = (skip_email ⟨2, false, none, 0⟩).1.query_count) := by
  decide

/-- C1 amended. The API skip endpoint accepts exactly when
`query_count = FREE_QUERY_LIMIT` and `skip_count = 0`; acceptance sets
`skip_count := 1` and nothing else, rejection changes nothing. The UI skip
handler never changes `query_count` and accepts exactly when a pending
message exists and `skip_count = 0`. In the API, the streaming replay of
the resent message after an accepted skip increments `query_count` by 1. -/
theorem skip_accept_characterization (s : Session) (u : UISession) :
    ((skip_email s).2.success = true ↔
      (s.query_count = FREE_QUERY_LIMIT ∧ s.skip_count = 0)) ∧
    ((skip_email s).1 =
      (if s.query_count = FREE_QUERY_LIMIT ∧ s.skip_count = 0 then
        { s with skip_count := 1 } else s)) ∧
    ((handle_skip_email u).1.query_count = u.query_count) ∧
    ((handle_skip_email u).2 = true ↔
      (u.pending_message.isSome = true ∧ u.skip_count = 0)) ∧
    (s.query_count = FREE_QUERY_LIMIT → s.skip_count = 1 →
      s.email_provided = false →
      (chat_stream s none true).1.query_count = s.query_count + 1) := by
  rcases s with ⟨qc, ep, ue, sk⟩
  rcases u with ⟨uqc, uep, uue, usk, upm⟩
  refine ⟨?_, ?_, ?_, ?_, ?_⟩
  · simp [skip_email, FREE_QUERY_LIMIT]
    split_ifs <;> simp_all <;> omega
  · simp [skip_email, FREE_QUERY_LIMIT]
    split_ifs <;> simp_all <;> omega
  · rcases upm with _ | m <;> simp [handle_skip_email] <;> split_ifs <;> rfl
  · rcases upm with _ | m <;> simp [handle_skip_email] <;> split_ifs <;> simp_all
  · intro h1 h2 h3
    subst h3
    simp_all [chat_stream, streamGate, emailTruthy, FREE_QUERY_LIMIT]

/-- Witness for `skip_accept_characterization` at concrete sessions. -/
theorem skip_accept_characterization_witness :
    (skip_email ⟨2, false, none, 0⟩).2.success = true ∧
    (chat_stream ⟨2, false, none, 1⟩ none true).1.query_count = 3 := by
  have h1 := skip_accept_characterization ⟨2, false, none, 0⟩ ⟨3, false, none, 0, some "q"⟩
  have h2 := skip_accept_characterization ⟨2, false, none, 1⟩ ⟨3, false, none, 0, some "q"⟩
  exact ⟨h1.1.mpr (by decide), h2.2.2.2.2 (by decide) (by decide) (by decide)⟩

/-- C2 counterexample. In the UI, three normal messages from a fresh
anonymous session drive `query_count` to 3 with no accepted skip: the
counter is incremented before the gate check, including for the blocked
third message, so it exceeds `FREE_QUERY_LIMIT` plus the number of accepted
skips while `email_provided` is still false. -/
theorem ui_quota_overrun_counterexample :
    (process_normal_message (process_normal_message (process_normal_message
        uiInit "m1") "m2") "m3").email_provided = false ∧
    (process_normal_message (process_normal_message (process_normal_message
        uiInit "m1") "m2") "m3").skip_count = 0 ∧
    (process_normal_message (process_normal_message (process_normal_message
        uiInit "m1") "m2") "m3").query_count = 3 ∧
    ¬((process_normal_message (process_normal_message (process_normal_message
        uiInit "m1") "m2") "m3").query_count ≤ FREE_QUERY_LIMIT + 0) := by
  decide

/-- C2 amended. For the API session store the claimed invariant holds: along
every trace of API requests from a fresh session, while `email_provided` is
false, `query_count ≤ FREE_QUERY_LIMIT + skip_count` with `skip_count ≤ 1`
(and `skip_count` counts the accepted skips while anonymous); moreover no
API request ever decreases `query_count`. In the UI the bound fails, see the
counterexample. -/
theorem api_quota_invariant :
    (∀ evs : List ApiEvent, quotaInv (runApi evs initSession) = true) ∧
    (∀ (s : Session) (e : ApiEvent), s.query_count ≤ (apiStep s e).query_count) := by
  constructor
  · intro evs
    exact quotaInv_run evs initSession (by decide)
  · intro s e
    rcases s with ⟨qc, ep, ue, sk⟩
    cases e <;>
      simp [apiStep, chat, chatGate, chat_stream, streamGate, submit_email,
        skip_email] <;>
      split_ifs <;> simp <;> omega

/-- C3 counterexample. A session with `email_provided = true` still has its
`query_count` incremented by the streaming endpoint: `generate()` increments
unconditionally after streaming completes. -/
theorem stream_increments_when_authenticated :
    (⟨5, true, some "a@b.com", 0⟩ : Session).email_provided = true ∧
    (chat_stream ⟨5, true, some "a@b.com", 0⟩ none true).1.query_count = 6 ∧
    ¬((chat_stream ⟨5, true, some "a@b.com", 0⟩ none true).1.query_count = 5) := by
  decide

/-- C3 amended. With `email_provided = true`, the non-streaming endpoint
leaves both counters unchanged, and the streaming endpoint leaves
`skip_count` unchanged but increments `query_count` by one whenever the SSE
generator runs to completion (and leaves it unchanged when it does not). -/
theorem authenticated_counter_effects (s : Session) (r : Option String)
    (ok : Bool) (h : s.email_provided = true) :
    ((chat s r).1.query_count = s.query_count ∧
      (chat s r).1.skip_count = s.skip_count) ∧
    ((chat_stream s r ok).1.skip_count = s.skip_count) ∧
    ((chat_stream s r true).1.query_count = s.query_count + 1) ∧
    ((chat_stream s r false).1.query_count = s.query_count) := by
  rcases s with ⟨qc, ep, ue, sk⟩
  cases ep
  · cases h
  · cases ok <;>
      simp [chat, chatGate, chat_stream, streamGate]

/-- Witness for `authenticated_counter_effects` at a concrete session. -/
theorem authenticated_counter_effects_witness :
    (chat ⟨7, true, some "e@f.gh", 1⟩ none).1.query_count = 7 ∧
    (chat_stream ⟨7, true, some "e@f.gh", 1⟩ none true).1.query_count = 8 := by
  have h := authenticated_counter_effects ⟨7, true, some "e@f.gh", 1⟩ none true rfl
  exact ⟨h.1.1, h.2.2.1⟩

/-- C4. Once an e-mail submission has run for a session (in particular once
it succeeds), every subsequent gate check — of the non-streaming and of the
streaming endpoint, after any further trace of API requests, with or without
a request e-mail — returns Allow, regardless of `query_count`. -/
theorem email_unlocks_all_gates (s : Session) (email : String)
    (evs : List ApiEvent) (r r' : Option String) :
    chatGate (runApi evs (submit_email s email).1) r = GateDecision.allow ∧
    streamGate (runApi evs (submit_email s email).1) r' = GateDecision.allow := by
  have hsub : (submit_email s email).1.email_provided = true := by
    simp [submit_email]
    split_ifs <;> rfl
  have h := runApi_preserves_email evs _ hsub
  constructor
  · simp [chatGate, h]
  · simp [streamGate, h]

/-- C5 (code bug). The e-mail `jörg@example.com` passes the framework-level
`EmailStr` check (internationalized local parts are accepted by
`email_validator`) but fails `validate_email`; the handler has already set
`email_provided`, `user_email` and `skip_count` before validation, so the
request is answered with failure (HTTP 400, "Invalid email format") while
the session stays mutated — the claim requires it to be unchanged. -/
theorem invalid_email_mutates_session :
    validate_email "jörg@example.com" = false ∧
    (submit_email ⟨2, false, none, 0⟩ "jörg@example.com").2.success = false ∧
    (submit_email ⟨2, false, none, 0⟩ "jörg@example.com").1.email_provided = true ∧
    ¬((submit_email ⟨2, false, none, 0⟩ "jörg@example.com").1
        = (⟨2, false, none, 0⟩ : Session)) := by
  decide

/-- C10. Clearing a session always reports success; afterwards the store has
no entry for the cleared id, all other ids are untouched, and clearing again
changes nothing (idempotence, stated pointwise). -/
theorem clear_session_total_idempotent (store : String → Option Session)
    (sid : String) :
    (clear_session store sid).2.1 = true ∧
    (clear_session store sid).1 sid = none ∧
    (∀ k, k ≠ sid → (clear_session store sid).1 k = store k) ∧
    (∀ k, (clear_session (clear_session store sid).1 sid).1 k
        = (clear_session store sid).1 k) := by
  refine ⟨rfl, ?_, ?_, ?_⟩
  · rcases h : store sid with _ | v <;> simp [clear_session, h]
  · intro k hk
    rcases h : store sid with _ | v <;> simp [clear_session, h, hk]
  · intro k
    rcases h : store sid with _ | v <;> simp [clear_session, h]

/-- Witness for `clear_session_total_idempotent` at a concrete store. -/
theorem clear_session_total_idempotent_witness :
    (clear_session (fun k => if k = "a" then some initSession else none) "a").1 "a"
      = none ∧
    (clear_session (fun k => if k = "a" then some initSession else none) "a").1 "b"
      = none := by
  have h := clear_session_total_idempotent
    (fun k => if k = "a" then some initSession else none) "a"
  exact ⟨h.2.1, by
    have hb := h.2.2.1 "b" (by decide)
    simp at hb
    simp [hb]⟩

/-! ## Helper lemmas about substring search and stripping -/

theorem isStartOf_trans (a : List Char) : ∀ (b c : List Char),
    isStartOf a b = true → isStartOf b c = true → isStartOf a c = true := by
  induction a with
  | nil => intro b c _ _; rfl
  | cons x xs ih =>
    intro b c hab hbc
    cases b with
    | nil => simp [isStartOf] at hab
    | cons y ys =>
      cases c with
      | nil => simp [isStartOf] at hbc
      | cons z zs =>
        simp only [isStartOf, Bool.and_eq_true, decide_eq_true_eq] at hab hbc ⊢
        exact ⟨hab.1.trans hbc.1, ih ys zs hab.2 hbc.2⟩

theorem findSub_cons_none (pat : List Char) (c : Char) (rest : List Char)
    (h : findSub pat (c :: rest) = none) :
    isStartOf pat (c :: rest) = false ∧ findSub pat rest = none := by
  by_cases hs : isStartOf pat (c :: rest) = true
  · simp [findSub, hs] at h
  · refine ⟨by simpa using hs, ?_⟩
    rcases hr : findSub pat rest with _ | v
    · rfl
    · simp [findSub, hs, hr] at h

theorem findSub_none_of_isStartOf (p q : List Char) (hpq : isStartOf p q = true) :
    ∀ s, findSub p s = none → findSub q s = none := by
  intro s
  induction s with
  | nil =>
    intro h
    by_cases hq : isStartOf q [] = true
    · have hp : isStartOf p [] = true := isStartOf_trans p q [] hpq hq
      simp [findSub, hp] at h
    · simp [findSub, hq]
  | cons c rest ih =>
    intro h
    obtain ⟨h1, h2⟩ := findSub_cons_none p c rest h
    have hq1 : isStartOf q (c :: rest) = false := by
      by_cases hqq : isStartOf q (c :: rest) = true
      · have := isStartOf_trans p q (c :: rest) hpq hqq
        rw [this] at h1; cases h1
      · simpa using hqq
    simp [findSub, hq1, ih h2]

theorem findSub_none_pre (pat : List Char) : ∀ (s t : List Char),
    isStartOf s t = true → findSub pat t = none → findSub pat s = none := by
  intro s
  induction s with
  | nil =>
    intro t _ h
    by_cases hp : pat = []
    · subst hp
      cases t <;> simp [findSub, isStartOf] at h
    · cases pat with
      | nil => exact absurd rfl hp
      | cons p ps => simp [findSub, isStartOf]
  | cons c rest ih =>
    intro t hst h
    cases t with
    | nil => simp [isStartOf] at hst
    | cons d ts =>
      simp only [isStartOf, Bool.and_eq_true, decide_eq_true_eq] at hst
      obtain ⟨hcd, hrest⟩ := hst
      subst hcd
      obtain ⟨h1, h2⟩ := findSub_cons_none pat c ts h
      have hr := ih ts hrest h2
      have hs1 : isStartOf pat (c :: rest) = false := by
        by_cases hx : isStartOf pat (c :: rest) = true
        · have : isStartOf pat (c :: ts) = true :=
            isStartOf_trans pat (c :: rest) (c :: ts) hx
              (by simp [isStartOf, hrest])
          rw [this] at h1; cases h1
        · simpa using hx
      simp [findSub, hs1, hr]

theorem subLitAux_id (pat repl : List Char) :
    ∀ (fuel : Nat) (s : List Char), findSub pat s = none →
      subLitAux pat repl fuel s = s := by
  intro fuel
  induction fuel with
  | zero => intro s _; cases s <;> rfl
  | succ f ih =>
    intro s h
    cases s with
    | nil => rfl
    | cons c rest =>
      obtain ⟨h1, h2⟩ := findSub_cons_none pat c rest h
      simp [subLitAux, h1, ih rest h2]

theorem splitBlock_none (st en s : List Char) (h : findSub st s = none) :
    splitBlock st en s = none := by
  simp [splitBlock, h]

theorem subBlockAux_id (st en repl : List Char) (fuel : Nat) (s : List Char)
    (h : findSub st s = none) : subBlockAux st en repl fuel s = s := by
  cases fuel with
  | zero => rfl
  | succ f => simp [subBlockAux, splitBlock_none st en s h]

theorem straySubAux_id : ∀ (fuel : Nat) (s : List Char),
    findSub dblLt s = none → straySubAux fuel s = s := by
  intro fuel
  induction fuel with
  | zero => intro s _; cases s <;> rfl
  | succ f ih =>
    intro s h
    cases s with
    | nil => rfl
    | cons c rest =>
      obtain ⟨h1, h2⟩ := findSub_cons_none dblLt c rest h
      simp [straySubAux, h1, ih rest h2]

theorem findSub_none_dropWhile (pat : List Char) (p : Char → Bool) :
    ∀ s, findSub pat s = none → findSub pat (s.dropWhile p) = none := by
  intro s
  induction s with
  | nil => intro h; simpa using h
  | cons c rest ih =>
    intro h
    obtain ⟨_, h2⟩ := findSub_cons_none pat c rest h
    by_cases hp : p c
    · simpa [List.dropWhile, hp] using ih h2
    · simpa [List.dropWhile, hp] using h

theorem isStartOf_dropTrail (l : List Char) : isStartOf (dropTrailWs l) l = true := by
  induction l with
  | nil => rfl
  | cons c rest ih =>
    simp only [dropTrailWs]
    split
    · rfl
    · simp [isStartOf, ih]

theorem findSub_none_dropTrail (pat s : List Char) (h : findSub pat s = none) :
    findSub pat (dropTrailWs s) = none :=
  findSub_none_pre pat (dropTrailWs s) s (isStartOf_dropTrail s) h

theorem findSub_none_pyStrip (pat s : List Char) (h : findSub pat s = none) :
    findSub pat (pyStrip s) = none :=
  findSub_none_dropTrail pat _ (findSub_none_dropWhile pat isPyWs s h)

theorem dropWhile_head_not (p : Char → Bool) :
    ∀ (l : List Char) c t, l.dropWhile p = c :: t → p c = false := by
  intro l
  induction l with
  | nil => intro c t h; cases h
  | cons x xs ih =>
    intro c t h
    by_cases hp : p x
    · exact ih c t (by simpa [List.dropWhile, hp] using h)
    · simp only [List.dropWhile, hp, Bool.false_eq_true, if_false] at h
      cases h
      simpa using hp

theorem dropTrail_idem (l : List Char) : dropTrailWs (dropTrailWs l) = dropTrailWs l := by
  induction l with
  | nil => rfl
  | cons c rest ih =>
    simp only [dropTrailWs]
    split
    · rfl
    · rename_i hcond
      simp only [dropTrailWs, ih]
      rw [if_neg hcond]

theorem pyStrip_idem (l : List Char) : pyStrip (pyStrip l) = pyStrip l := by
  show dropTrailWs ((dropTrailWs (l.dropWhile isPyWs)).dropWhile isPyWs)
      = dropTrailWs (l.dropWhile isPyWs)
  have hdw : (dropTrailWs (l.dropWhile isPyWs)).dropWhile isPyWs
      = dropTrailWs (l.dropWhile isPyWs) := by
    cases ht : dropTrailWs (l.dropWhile isPyWs) with
    | nil => rfl
    | cons c t =>
      have hpre := isStartOf_dropTrail (l.dropWhile isPyWs)
      rw [ht] at hpre
      cases hm2 : l.dropWhile isPyWs with
      | nil => rw [hm2] at hpre; simp [isStartOf] at hpre
      | cons d ms =>
        rw [hm2] at hpre
        simp only [isStartOf, Bool.and_eq_true, decide_eq_true_eq] at hpre
        have hc : isPyWs c = false := by
          rw [hpre.1]
          exact dropWhile_head_not isPyWs l d ms hm2
        simp [List.dropWhile, hc]
  rw [hdw, dropTrail_idem]

/-- No `<<` anywhere means neither `re.search` finds a block nor any
substitution changes anything, so the formatter just strips. -/
theorem pfr_no_marker (x : List Char) (h : hasSub dblLt x = false) :
    parse_and_format_response x = some (pyStrip x) := by
  have hnone : findSub dblLt x = none := by
    rcases hx : findSub dblLt x with _ | v
    · rfl
    · rw [hasSub, hx] at h; cases h
  have hmd : findSub mdStart x = none :=
    findSub_none_of_isStartOf dblLt mdStart (by decide) x hnone
  have hmdE : findSub mdEnd x = none :=
    findSub_none_of_isStartOf dblLt mdEnd (by decide) x hnone
  have hjs : findSub jsStart x = none :=
    findSub_none_of_isStartOf dblLt jsStart (by decide) x hnone
  have hfall : fallthroughClean x = pyStrip x := by
    simp only [fallthroughClean, subLit, subBlock]
    rw [subLitAux_id mdStart [] _ x hmd]
    rw [subLitAux_id mdEnd [] _ x hmdE]
    rw [subBlockAux_id jsStart jsEnd [] _ x hjs]
    rw [straySubAux_id _ x hnone]
  simp only [parse_and_format_response, searchBlock, splitBlock, hmd, hjs,
    Option.map_none', hfall]

/-! ## Claim theorems: answer formatter -/

/-- C6 counterexample. On the well-formed input
`<<MARKDOWN_TABLE>><<MARKDOWN_TABLE>><<END_MARKDOWN_TABLE>>Z<<END_MARKDOWN_TABLE>>`
the first (non-greedy) block has the start marker itself as its content, so
one application yields `<<MARKDOWN_TABLE>>Z<<END_MARKDOWN_TABLE>>`, and a
second application yields `Z`: `format(format(x)) ≠ format(x)`. -/
theorem formatter_not_idempotent_counterexample :
    parse_and_format_response
        "<<MARKDOWN_TABLE>><<MARKDOWN_TABLE>><<END_MARKDOWN_TABLE>>Z<<END_MARKDOWN_TABLE>>".data
      = some "<<MARKDOWN_TABLE>>Z<<END_MARKDOWN_TABLE>>".data ∧
    parse_and_format_response "<<MARKDOWN_TABLE>>Z<<END_MARKDOWN_TABLE>>".data
      = some "Z".data ∧
    ¬((parse_and_format_response
        "<<MARKDOWN_TABLE>><<MARKDOWN_TABLE>><<END_MARKDOWN_TABLE>>Z<<END_MARKDOWN_TABLE>>".data).bind
          parse_and_format_response
        = parse_and_format_response
            "<<MARKDOWN_TABLE>><<MARKDOWN_TABLE>><<END_MARKDOWN_TABLE>>Z<<END_MARKDOWN_TABLE>>".data) := by
  decide

/-- C6 amended. The formatter is idempotent on every input containing no
`<<` marker token: there it reduces to `strip`, which is idempotent. (On
inputs whose table-block content itself contains markers, a second
application can differ — see the counterexample.) -/
theorem formatter_idempotent_no_markers (x : List Char)
    (h : hasSub dblLt x = false) :
    (parse_and_format_response x).bind parse_and_format_response
      = parse_and_format_response x := by
  have hnone : findSub dblLt x = none := by
    rcases hx : findSub dblLt x with _ | v
    · rfl
    · rw [hasSub, hx] at h; cases h
  have h1 := pfr_no_marker x h
  have h2 : hasSub dblLt (pyStrip x) = false := by
    rw [hasSub, findSub_none_pyStrip dblLt x hnone]
    rfl
  have h3 := pfr_no_marker (pyStrip x) h2
  rw [h1]
  have hb : (some (pyStrip x)).bind parse_and_format_response
      = parse_and_format_response (pyStrip x) := rfl
  rw [hb, h3, pyStrip_idem]

/-- Witness for `formatter_idempotent_no_markers` at a concrete input. -/
theorem formatter_idempotent_no_markers_witness :
    ((parse_and_format_response "hello world".data).bind parse_and_format_response
      = parse_and_format_response "hello world".data) ∧
    parse_and_format_response "hello world".data = some "hello world".data := by
  constructor
  · exact formatter_idempotent_no_markers "hello world".data (by decide)
  · decide

/-! ## Helper lemmas for the generation adapter and source formatting -/

theorem isStartOf_refl {α : Type} [DecidableEq α] (l : List α) :
    isStartOf l l = true := by
  induction l with
  | nil => rfl
  | cons x xs ih => simp [isStartOf, ih]

theorem isStartOf_append {α : Type} [DecidableEq α] (l t : List α) :
    isStartOf l (l ++ t) = true := by
  induction l with
  | nil => rfl
  | cons x xs ih => simp [isStartOf, ih]

/-- Unfolding of the three-attempt retry loop (the source default
`max_retries = 3`). -/
theorem geminiGo3 (att : Nat → Attempt) :
    geminiGo att 3 0
      = (let a0 := att 0
         let out0 := a0.chunks.filter (fun c => !(c == ""))
         if !a0.fails then out0
         else out0 ++
           (let a1 := att 1
            let out1 := a1.chunks.filter (fun c => !(c == ""))
            if !a1.fails then out1
            else out1 ++
              (let a2 := att 2
               let out2 := a2.chunks.filter (fun c => !(c == ""))
               if !a2.fails then out2
               else out2 ++ [geminiErrorMsg]))) := rfl

theorem insertDesc_perm (x : Nat × Doc) (l : List (Nat × Doc)) :
    (insertDesc x l).Perm (x :: l) := by
  induction l with
  | nil => exact List.Perm.refl _
  | cons y ys ih =>
    simp only [insertDesc]
    split
    · exact List.Perm.refl _
    · exact (List.Perm.cons y ih).trans (List.Perm.swap x y ys)

theorem sortFold_perm : ∀ (l acc : List (Nat × Doc)),
    (l.foldl (fun a x => insertDesc x a) acc).Perm (acc ++ l) := by
  intro l
  induction l with
  | nil => intro acc; simp
  | cons x xs ih =>
    intro acc
    simp only [List.foldl_cons]
    refine (ih (insertDesc x acc)).trans ?_
    refine (List.Perm.append_right xs (insertDesc_perm x acc)).trans ?_
    simpa using List.perm_middle.symm

theorem sortDescList_perm (l : List (Nat × Doc)) : (sortDescList l).Perm l := by
  simpa [sortDescList] using sortFold_perm l []

theorem insertDesc_pairwise (x : Nat × Doc) (l : List (Nat × Doc))
    (h : l.Pairwise (fun a b => b.1 ≤ a.1)) :
    (insertDesc x l).Pairwise (fun a b => b.1 ≤ a.1) := by
  induction l with
  | nil => simp [insertDesc]
  | cons y ys ih =>
    rw [List.pairwise_cons] at h
    obtain ⟨hy, hys⟩ := h
    simp only [insertDesc]
    split
    · rename_i hlt
      rw [List.pairwise_cons]
      constructor
      · intro z hz
        rcases List.mem_cons.mp hz with rfl | hz2
        · omega
        · have := hy z hz2; omega
      · rw [List.pairwise_cons]; exact ⟨hy, hys⟩
    · rename_i hnlt
      rw [List.pairwise_cons]
      constructor
      · intro z hz
        have hz2 := (insertDesc_perm x ys).mem_iff.mp hz
        rcases List.mem_cons.mp hz2 with rfl | hz3
        · omega
        · exact hy z hz3
      · exact ih hys

theorem sortFold_pairwise : ∀ (l acc : List (Nat × Doc)),
    acc.Pairwise (fun a b => b.1 ≤ a.1) →
    (l.foldl (fun a x => insertDesc x a) acc).Pairwise (fun a b => b.1 ≤ a.1) := by
  intro l
  induction l with
  | nil => intro acc h; simpa using h
  | cons x xs ih =>
    intro acc h
    simp only [List.foldl_cons]
    exact ih _ (insertDesc_pairwise x acc h)

theorem sortDescList_pairwise (l : List (Nat × Doc)) :
    (sortDescList l).Pairwise (fun a b => b.1 ≤ a.1) :=
  sortFold_pairwise l [] (by simp)

theorem mem_scoredDocs (docs : List Doc) (p : Nat × Doc)
    (h : p ∈ scoredDocs docs) : p.1 = docScore p.2 ∧ p.2 ∈ docs := by
  simp only [scoredDocs, List.mem_map] at h
  obtain ⟨d, hd, hp⟩ := h
  subst hp
  exact ⟨rfl, hd⟩

/-! ## Claim theorems: generation adapter streaming -/

/-- C8 counterexample. With the default three retries: a backend whose first
attempt yields one chunk and then fails, and whose remaining attempts fail
immediately, surfaces the degraded error message to the sink even though a
chunk was delivered; and a backend whose first attempt yields a chunk and
fails while the second succeeds re-emits the already-delivered chunk. -/
theorem gemini_stream_counterexample :
    gemini_stream 3 "q" (fun _ i => if i = 0 then ⟨["A"], true⟩ else ⟨[], true⟩)
      = ["A", geminiErrorMsg] ∧
    geminiErrorMsg ∈
      gemini_stream 3 "q" (fun _ i => if i = 0 then ⟨["A"], true⟩ else ⟨[], true⟩) ∧
    gemini_stream 3 "q"
        (fun _ i => if i = 0 then ⟨["A"], true⟩ else ⟨["A", "B"], false⟩)
      = ["A", "A", "B"] ∧
    (gemini_stream 3 "q"
        (fun _ i => if i = 0 then ⟨["A"], true⟩ else ⟨["A", "B"], false⟩)).count "A"
      = 2 := by
  decide

/-- C8 amended. For a nonempty prompt with the default three retries: the
non-empty chunks of the first attempt are always an initial segment of the
emitted sequence (delivered output is never retracted, though it may be
re-emitted by a retry), and when all three attempts fail the output is the
concatenation of all three attempts' delivered chunks followed by the
degraded error message — the error is appended regardless of how many
chunks were delivered, and only a fully failed retry loop emits it. -/
theorem gemini_stream_retry_characterization (p : String)
    (b : String → Nat → Attempt) (hp : (pyStrip p.data).isEmpty = false) :
    isStartOf ((b (truncatePrompt p) 0).chunks.filter (fun c => !(c == "")))
        (gemini_stream 3 p b) = true ∧
    ((b (truncatePrompt p) 0).fails = true →
      (b (truncatePrompt p) 1).fails = true →
      (b (truncatePrompt p) 2).fails = true →
      gemini_stream 3 p b
        = (b (truncatePrompt p) 0).chunks.filter (fun c => !(c == ""))
          ++ ((b (truncatePrompt p) 1).chunks.filter (fun c => !(c == ""))
          ++ ((b (truncatePrompt p) 2).chunks.filter (fun c => !(c == ""))
          ++ [geminiErrorMsg]))) := by
  have he : gemini_stream 3 p b = geminiGo (b (truncatePrompt p)) 3 0 := by
    simp [gemini_stream, hp]
  constructor
  · rw [he, geminiGo3]
    by_cases h0 : (b (truncatePrompt p) 0).fails
    · simp [h0, isStartOf_append]
    · simp [h0, isStartOf_refl]
  · intro h0 h1 h2
    rw [he, geminiGo3]
    simp [h0, h1, h2]

/-- Witness for `gemini_stream_retry_characterization` at a concrete
backend. -/
theorem gemini_stream_retry_characterization_witness :
    gemini_stream 3 "q" (fun _ i => if i = 0 then ⟨["A"], true⟩ else ⟨[], true⟩)
      = ["A", geminiErrorMsg] ∧
    isStartOf ["A"]
      (gemini_stream 3 "q" (fun _ i => if i = 0 then ⟨["A"], true⟩ else ⟨[], true⟩))
      = true := by
  have h := gemini_stream_retry_characterization "q"
    (fun _ i => if i = 0 then ⟨["A"], true⟩ else ⟨[], true⟩) (by decide)
  constructor
  · exact (h.2 (by decide) (by decide) (by decide)).trans (by decide)
  · have hf : ((fun (_ : String) i => if i = 0 then (⟨["A"], true⟩ : Attempt)
        else ⟨[], true⟩) (truncatePrompt "q") 0).chunks.filter (fun c => !(c == ""))
        = ["A"] := by decide
    have h1 := h.1
    rw [hf] at h1
    exact h1

/-! ## Claim theorems: source formatting -/

/-- C9 counterexample. A passage with a 58-character title and a valid URL
is rendered with its full title: the truncation threshold in the code is
"longer than 60", not "longer than 57" as the claim states. -/
theorem format_sources_truncation_counterexample :
    (ofChars (List.replicate 58 't')).length = 58 ∧
    57 < (ofChars (List.replicate 58 't')).length ∧
    format_sources [⟨"", none, some (ofChars (List.replicate 58 't')),
        some "https://u.edu/x", none⟩]
      = "\n\n \n1. [" ++ ofChars (List.replicate 58 't') ++ "](https://u.edu/x)\n" ∧
    ¬(format_sources [⟨"", none, some (ofChars (List.replicate 58 't')),
        some "https://u.edu/x", none⟩]
      = "\n\n \n1. [" ++ ofChars (List.replicate 57 't') ++ "...](https://u.edu/x)\n") := by
  decide

/-- C9 amended. Source formatting scores each passage (+2 brand token, +1
long non-placeholder title, +1 long content), selects the top
`min(3, len)` by score descending (stably), renders numbered entries while
omitting every entry whose URL is missing, empty or the placeholder
`"Unknown"`, and truncates a title to 57 characters plus an ellipsis only
when it is longer than 60 characters (titles of lengths 58-60 are kept). -/
theorem format_sources_properties (docs : List Doc) :
    (selected_docs docs).length = min 3 docs.length ∧
    (∀ d, d ∈ selected_docs docs → d ∈ docs) ∧
    (selected_docs docs).Pairwise (fun a b => docScore b ≤ docScore a) ∧
    (∀ (i : Nat) (d : Doc), (d.url.getD "" = "" ∨ d.url.getD "" = "Unknown") →
      render_source i d = "") ∧
    (∀ (i : Nat) (d : Doc), ¬(d.url.getD "" = "") → ¬(d.url.getD "" = "Unknown") →
      60 < (d.title.getD "University Information").length →
      render_source i d = toString i ++ ". ["
        ++ ofChars ((d.title.getD "University Information").data.take 57)
        ++ "...](" ++ d.url.getD "" ++ ")\n") ∧
    (∀ (i : Nat) (d : Doc), ¬(d.url.getD "" = "") → ¬(d.url.getD "" = "Unknown") →
      (d.title.getD "University Information").length ≤ 60 →
      render_source i d = toString i ++ ". [" ++ d.title.getD "University Information"
        ++ "](" ++ d.url.getD "" ++ ")\n") ∧
    (¬(docs = []) → format_sources docs
        = "\n\n \n" ++ render_entries 1 (selected_docs docs)) := by
  have hperm := sortDescList_perm (scoredDocs docs)
  have hlen : (sortDescList (scoredDocs docs)).length = docs.length := by
    rw [hperm.length_eq]
    simp [scoredDocs]
  refine ⟨?_, ?_, ?_, ?_, ?_, ?_, ?_⟩
  · simp only [selected_docs, List.length_map, List.length_take, hlen]
    have h3 : min 3 docs.length ≤ docs.length := Nat.min_le_right 3 docs.length
    omega
  · intro d hd
    simp only [selected_docs, List.mem_map] at hd
    obtain ⟨p, hp, hpd⟩ := hd
    have hp2 : p ∈ sortDescList (scoredDocs docs) := List.mem_of_mem_take hp
    have hp3 : p ∈ scoredDocs docs := hperm.mem_iff.mp hp2
    have := (mem_scoredDocs docs p hp3).2
    rw [hpd] at this
    exact this
  · have hpw := sortDescList_pairwise (scoredDocs docs)
    have hpwt : ((sortDescList (scoredDocs docs)).take
        (min 3 (sortDescList (scoredDocs docs)).length)).Pairwise
          (fun a b => b.1 ≤ a.1) :=
      hpw.sublist (List.take_sublist _ _)
    rw [selected_docs, List.pairwise_map]
    refine hpwt.imp_of_mem ?_
    intro a b ha hb hab
    have ha2 := (mem_scoredDocs docs a
      (hperm.mem_iff.mp (List.mem_of_mem_take ha))).1
    have hb2 := (mem_scoredDocs docs b
      (hperm.mem_iff.mp (List.mem_of_mem_take hb))).1
    rw [← ha2, ← hb2]
    exact hab
  · intro i d h
    rcases h with h | h <;> simp [render_source, h]
  · intro i d h1 h2 h3
    simp only [render_source]
    rw [if_pos ⟨h1, h2⟩, if_pos (by simpa using h3)]
  · intro i d h1 h2 h3
    simp only [render_source]
    rw [if_pos ⟨h1, h2⟩, if_neg (by simpa using Nat.not_lt.mpr h3)]
  · intro h
    simp [format_sources, h]

/-- Witness for `format_sources_properties` at concrete passages. -/
theorem format_sources_properties_witness :
    render_source 1 ⟨"", none, some (ofChars (List.replicate 61 't')),
        some "https://u.edu/x", none⟩
      = "1. [" ++ ofChars (List.replicate 57 't') ++ "...](https://u.edu/x)\n" ∧
    render_source 2 (⟨"", none, some "T", none, none⟩ : Doc) = "" ∧
    (selected_docs [⟨"", none, some "T", none, none⟩]).length = min 3 1 := by
  have h := format_sources_properties [⟨"", none, some "T", none, none⟩]
  refine ⟨?_, ?_, h.1⟩
  · have ht := h.2.2.2.2.1 1 ⟨"", none, some (ofChars (List.replicate 61 't')),
      some "https://u.edu/x", none⟩ (by decide) (by decide) (by decide)
    exact ht.trans (by decide)
  · exact h.2.2.2.1 2 _ (Or.inl (by decide))

/-! ## Helper lemmas for the streaming pipeline -/

/-- The chunk loop emits only `done=false` events while the formatter
succeeds, and ends in a single `done=true` error event if it raises. -/
theorem streamLoop_map_done (chunks : List String) : ∀ acc : String,
    ((streamLoop acc chunks).2.isSome = true →
      (streamLoop acc chunks).1.map StreamEvent.done
        = List.replicate (streamLoop acc chunks).1.length false) ∧
    ((streamLoop acc chunks).2 = none →
      (streamLoop acc chunks).1.map StreamEvent.done
        = List.replicate ((streamLoop acc chunks).1.length - 1) false ++ [true]) := by
  induction chunks with
  | nil =>
    intro acc
    constructor
    · intro _; rfl
    · intro h; simp only [streamLoop] at h; cases h
  | cons c rest ih =>
    intro acc
    rcases hp : parse_and_format_response (acc ++ c).data with _ | parsed <;>
      simp only [streamLoop, hp]
    · constructor
      · intro hs; cases hs
      · intro _; rfl
    · have ihs := ih (acc ++ c)
      constructor
      · intro hs
        have h1 := ihs.1 hs
        simp only [List.map_cons, List.length_cons, h1, List.replicate_succ]
      · intro hn
        have h2 := ihs.2 hn
        rcases hl : (streamLoop (acc ++ c) rest).1 with _ | ⟨e, tail⟩
        · rw [hl] at h2
          simp at h2
        · rw [hl] at h2
          simp only [hl, List.map_cons, List.length_cons] at h2 ⊢
          rw [h2]
          simp [List.replicate_succ]

/-- The tail of the streaming query emits `done=false` events followed by
exactly one final `done=true` event. -/
theorem stream_main_done (env : StreamEnv) (q ctx : String) (f : List Doc) :
    (streamMainEvents env q ctx f).map StreamEvent.done
      = List.replicate ((streamMainEvents env q ctx f).length - 1) false
          ++ [true] := by
  have hl := streamLoop_map_done env.chunks ""
  rcases h2 : (streamLoop "" env.chunks).2 with _ | acc
  · have hres := hl.2 h2
    simp only [streamMainEvents, h2]
    exact hres
  · have hs := hl.1 (by rw [h2]; rfl)
    rcases hf : parse_and_format_response acc.data with _ | fin <;>
      simp only [streamMainEvents, h2, hf]
    · rw [List.map_append, hs]
      simp
    · rw [List.map_append, hs]
      simp

/-- The docs branch of the streaming query has the same shape. -/
theorem streamDocs_done (env : StreamEnv) (q : String) :
    (streamDocsEvents env q).map StreamEvent.done
      = List.replicate ((streamDocsEvents env q).length - 1) false ++ [true] := by
  simp only [streamDocsEvents]
  split_ifs <;> first
    | rfl
    | exact stream_main_done env q _ _

/-! ## Claim theorems: streaming event sequences -/

/-- C7 counterexample. A streamed query whose LLM chunks are
`["hi <", "<x>>"]` first emits `partial_text = "hi <"` and then
`partial_text = "hi"` — the later event is *shorter*, because every chunk
re-formats the whole accumulated buffer and the completed `<<x>>` marker is
stripped, so the previous event is not a prefix of the next. Moreover the
SSE adapter wrapping this chatbot stream emits two `done=true` events: the
chatbot's final event and its own appended terminal event. -/
theorem stream_events_counterexample :
    (query_streaming ⟨false, [⟨ofChars (List.replicate 100 'a'), none,
        some "Admissions", some "https://www.srmist.edu.in/fees", none⟩], 10,
        ["hi <", "<x>>"], 0, "", ""⟩ "tell me about admission procedure").length
      = 3 ∧
    ((query_streaming ⟨false, [⟨ofChars (List.replicate 100 'a'), none,
        some "Admissions", some "https://www.srmist.edu.in/fees", none⟩], 10,
        ["hi <", "<x>>"], 0, "", ""⟩ "tell me about admission procedure").get? 0).map
          StreamEvent.content = some "hi <" ∧
    ((query_streaming ⟨false, [⟨ofChars (List.replicate 100 'a'), none,
        some "Admissions", some "https://www.srmist.edu.in/fees", none⟩], 10,
        ["hi <", "<x>>"], 0, "", ""⟩ "tell me about admission procedure").get? 1).map
          StreamEvent.content = some "hi" ∧
    isStartOf "hi <".data "hi".data = false ∧
    ((generateSSE (query_streaming ⟨false, [⟨ofChars (List.replicate 100 'a'), none,
        some "Admissions", some "https://www.srmist.edu.in/fees", none⟩], 10,
        ["hi <", "<x>>"], 0, "", ""⟩ "tell me about admission procedure")).filter
          (fun e => e.done)).length = 2 := by
  decide

/-- C7 amended. For every environment and question, the chatbot-level
streamed event sequence has exactly one `done=true` event, as its last
event (all earlier events are `done=false`); the per-event `content` is the
re-formatted whole accumulated buffer and need not extend the previous
event's content (see the counterexample), and the API SSE adapter appends a
second `done=true` terminal event after the chatbot's final one. -/
theorem stream_single_done_last (env : StreamEnv) (question : String) :
    (query_streaming env question).map StreamEvent.done
      = List.replicate ((query_streaming env question).length - 1) false
          ++ [true] := by
  unfold query_streaming
  split_ifs <;> first
    | rfl
    | exact streamDocs_done env question
